import Mathlib

/-!
Verification development for the core of the rend3 rendering engine.

The definitions below are a shallow embedding of the repository's source:

* `instruction.rs` — the double-buffered instruction queue
  (`InstructionStreamPair`, `Instruction`);
* `renderer/passes/culling.rs` — the culling pass buffer preparation and
  dispatch arithmetic (`CullingPass.prepare`, `CullingPass.dispatchGroups`);
* `resources/object.rs` — the object manager (`ObjectManager`);
* `renderer/mod.rs` — the public enqueue-only API (`Renderer.add_mesh`, …);
* `renderer/setup.rs` — renderer creation (`create_renderer`).

The generic resource registry (`util::registry::ResourceRegistry`), the mesh
manager's internal record, and the public datatype definitions are not part of
the sources at hand; they are modelled from the specification, and each such
definition is marked `Modelled from the spec:` in its doc comment.

Machine integers are embedded as `Nat`/`Int`, with wrapping made explicit via
`% 2 ^ 32` where the source performs `u32` arithmetic or `as u32` / `as i32`
casts.
-/

namespace Rend3

/-- Modulus of `u32` arithmetic. -/
def U32_MOD : Nat := 2 ^ 32

/-- Truncating cast `usize as u32`: keeps the low 32 bits. -/
def toU32 (n : Nat) : Nat := n % U32_MOD

/-- Truncating, sign-reinterpreting cast `usize as i32`: keeps the low 32 bits
and reinterprets them as a two's-complement signed value. -/
def toI32 (n : Nat) : Int :=
  let m := n % U32_MOD
  if m < 2 ^ 31 then (m : Int) else (m : Int) - (U32_MOD : Int)

/-- Wrapping `u32` addition-result reduction. -/
def wrap32 (n : Nat) : Nat := n % U32_MOD

/-- Wrapping `u32` subtraction `a - b` (for `b ≤ U32_MOD`), as performed by
release-mode Rust `u32` arithmetic. -/
def u32_sub (a b : Nat) : Nat := (a + U32_MOD - b) % U32_MOD

/-- Modelled from the spec: a half-open index range (`Range<usize>` in the
source, with fields `start` and `end`; `end` is spelled `stop` here because it
is a reserved word). -/
structure NRange where
  start : Nat
  stop : Nat
  deriving DecidableEq

/-- Modelled from the spec: a world-space bounding sphere (centre plus radius).
Scalar components are carried opaquely as integers; no claim computes on
them. -/
structure BoundingSphere where
  x : Int
  y : Int
  z : Int
  radius : Int
  deriving DecidableEq

/-- Modelled from the spec: a 4×4 affine transform matrix. Its entries are
carried opaquely; no claim computes on them. -/
structure Mat4 where
  entries : List Int
  deriving DecidableEq

/-- Modelled from the spec: a transform payload as queued by the public API
(`AffineTransform` in `datatypes`), carried as a 4×4 matrix. -/
def AffineTransform := Mat4

instance : DecidableEq AffineTransform := fun a b =>
  inferInstanceAs (Decidable (Mat4.mk a.entries = Mat4.mk b.entries))

/-- Modelled from the spec: an opaque stable handle, an (index, generation)
pair referencing a registry slot. The typed handle kinds (`MeshHandle`,
`ObjectHandle`, …) all carry the same data. -/
structure Handle where
  idx : Nat
  generation : Nat
  deriving DecidableEq

/-- Modelled from the spec: the public mesh description (vertex/index buffers
to be uploaded); its fields are carried opaquely by the queue. -/
structure Mesh where
  vertices : List Int
  indices : List Nat
  deriving DecidableEq

/-- Modelled from the spec: the public texture description, carried opaquely by
the queue. -/
structure Texture where
  pixels : List Nat
  deriving DecidableEq

/-- Modelled from the spec: the public material description, carried opaquely
by the queue. -/
structure Material where
  data : List Int
  deriving DecidableEq

/-- Modelled from the spec: renderer options, carried opaquely by the queue. -/
structure RendererOptions where
  data : List Nat
  deriving DecidableEq

/-- Modelled from the spec: the public object description — a mesh handle, a
material handle and a world transform (the fields `fill` reads in
`resources/object.rs`). -/
structure Object where
  mesh : Handle
  material : Handle
  transform : Mat4
  deriving DecidableEq

/-- Modelled from the spec: the mesh manager's internal record —
`vertex_range`, `index_range` and `bounding_sphere`, derived once at insertion
time. -/
structure InternalMesh where
  vertex_range : NRange
  index_range : NRange
  bounding_sphere : BoundingSphere
  deriving DecidableEq

/-- The object manager's internal record (`InternalObject` in
`resources/object.rs`). -/
structure InternalObject where
  material : Handle
  transform : Mat4
  sphere : BoundingSphere
  start_idx : Nat
  count : Nat
  vertex_offset : Int
  deriving DecidableEq

/-- The queued scene-mutation variants (`Instruction` in `instruction.rs`). -/
inductive Instruction where
  | AddMesh (handle : Handle) (mesh : Mesh)
  | RemoveMesh (handle : Handle)
  | AddTexture (handle : Handle) (texture : Texture)
  | RemoveTexture (handle : Handle)
  | AddMaterial (handle : Handle) (material : Material)
  | RemoveMaterial (handle : Handle)
  | AddObject (handle : Handle) (object : Object)
  | SetObjectTransform (handle : Handle) (transform : AffineTransform)
  | RemoveObject (handle : Handle)
  | SetOptions (options : RendererOptions)
  deriving DecidableEq

/-- The double-buffered instruction queue (`InstructionStreamPair` in
`instruction.rs`): a producer list appended to by callers and a consumer list
drained by the render loop. The element type is a parameter so that the
ordering theorems quantify over arbitrary queued payloads; the renderer
instantiates it with `Instruction`. -/
structure InstructionStreamPair (α : Type) where
  producer : List α
  consumer : List α
  deriving DecidableEq

/-- `InstructionStreamPair::new`: both lists start empty. -/
def InstructionStreamPair.new (α : Type) : InstructionStreamPair α :=
  { producer := [], consumer := [] }

/-- `self.producer.lock().push(i)`: append one instruction to the end of the
producer list. -/
def InstructionStreamPair.push (p : InstructionStreamPair α) (a : α) :
    InstructionStreamPair α :=
  { producer := p.producer ++ [a], consumer := p.consumer }

/-- `InstructionStreamPair::swap`: `mem::swap` of the two lists under both
locks — the lists are exchanged and neither is cleared. -/
def InstructionStreamPair.swap (p : InstructionStreamPair α) :
    InstructionStreamPair α :=
  { producer := p.consumer, consumer := p.producer }

/-- Modelled from the spec: one render-loop frame boundary — the loop calls
`swap()` once, then drains the consumer list (returning its contents as the
frame's batch) and clears it before the next swap. -/
def renderFrame (p : InstructionStreamPair α) : InstructionStreamPair α × List α :=
  let s := p.swap
  ({ producer := s.producer, consumer := [] }, s.consumer)

/-- One observable event against the instruction queue: a producer append, a
`swap()` call, or the render loop draining (and clearing) the consumer list. -/
inductive QEvent (α : Type) where
  | append (a : α)
  | swap
  | drain
  deriving DecidableEq

/-- A queue execution state: the stream pair together with the batches drained
so far. -/
structure QState (α : Type) where
  pair : InstructionStreamPair α
  batches : List (List α)

/-- Small-step semantics of the queue events: `append` pushes onto the producer
list, `swap` is `InstructionStreamPair.swap`, `drain` records the consumer list
as a batch and clears it. -/
def qstep (s : QState α) (e : QEvent α) : QState α :=
  match e with
  | .append a => { pair := s.pair.push a, batches := s.batches }
  | .swap => { pair := s.pair.swap, batches := s.batches }
  | .drain =>
      { pair := { producer := s.pair.producer, consumer := [] },
        batches := s.batches ++ [s.pair.consumer] }

/-- Run a sequence of queue events from the freshly created queue. -/
def qrun (es : List (QEvent α)) : QState α :=
  List.foldl qstep { pair := InstructionStreamPair.new α, batches := [] } es

/-- The instructions appended by an event sequence, in order. -/
def appendsOf (es : List (QEvent α)) : List α :=
  es.filterMap fun e =>
    match e with
    | .append a => some a
    | _ => none

/-- The render-loop discipline on a trace: starting from `p`, every `swap`
event happens only when the consumer list is empty (it was drained and cleared
since the previous swap). -/
def drainedBeforeSwaps (p : InstructionStreamPair α) : List (QEvent α) → Bool
  | [] => true
  | .append a :: es => drainedBeforeSwaps (p.push a) es
  | .swap :: es => p.consumer.isEmpty && drainedBeforeSwaps p.swap es
  | .drain :: es =>
      drainedBeforeSwaps { producer := p.producer, consumer := [] } es

/-- Registry error taxonomy from the spec: `InvalidHandle` for a stale/unknown
handle passed to `insert`, `UnknownHandle` for a failed lookup. -/
inductive RegistryError where
  | InvalidHandle
  | UnknownHandle
  deriving DecidableEq

/-- Modelled from the spec: the lifecycle state of one registry slot — handed
out by `allocate` but not yet filled (`reserved`), live with a value
(`filled`), marked pending removal (`dead`), or reclaimed and available for
reuse (`free`). -/
inductive SlotState (I : Type) where
  | reserved
  | filled (value : I)
  | dead (value : I)
  | free
  deriving DecidableEq

/-- Whether a slot is reclaimed and available for reuse. -/
def SlotState.isFree : SlotState I → Bool
  | .free => true
  | _ => false

/-- Whether a slot is associated with a previously allocated, still-usable
handle (allocated-not-yet-filled or already filled); `insert` succeeds exactly
on these. -/
def SlotState.isActive : SlotState I → Bool
  | .reserved => true
  | .filled _ => true
  | _ => false

/-- Whether a slot is marked pending removal. -/
def SlotState.isDead : SlotState I → Bool
  | .dead _ => true
  | _ => false

/-- Modelled from the spec: one registry slot — its current generation counter
and its lifecycle state. -/
structure Slot (I : Type) where
  generation : Nat
  st : SlotState I
  deriving DecidableEq

/-- Modelled from the spec: `util::registry::ResourceRegistry<Internal,
Public>` (not in the sources at hand) — an ordered mapping from handles to
internal values, with generation tracking for stale-handle detection. The
`Public` parameter tags the registry with its public resource type, as in the
source signature. -/
structure ResourceRegistry (I : Type) (P : Type) where
  slots : List (Slot I)
  deriving DecidableEq

/-- Modelled from the spec: `ResourceRegistry::new` starts with no slots. -/
def ResourceRegistry.new (I P : Type) : ResourceRegistry I P := ⟨[]⟩

/-- Helper for `allocate`: reuse the first free slot, incrementing its
generation; returns the updated slot list, the reused index and the new
generation, or `none` when no slot is free. -/
def allocSlots : List (Slot I) → Option (List (Slot I) × Nat × Nat)
  | [] => none
  | s :: rest =>
      if s.st.isFree then
        some (⟨s.generation + 1, .reserved⟩ :: rest, 0, s.generation + 1)
      else
        match allocSlots rest with
        | some (rest', i, g) => some (s :: rest', i + 1, g)
        | none => none

/-- Modelled from the spec: `allocate()` returns a fresh handle whose index is
either a reused freed slot (generation incremented) or a newly appended slot
(generation 0); it never blocks on GPU work and changes no filled value. -/
def ResourceRegistry.allocate (r : ResourceRegistry I P) :
    ResourceRegistry I P × Handle :=
  match allocSlots r.slots with
  | some (slots', i, g) => (⟨slots'⟩, ⟨i, g⟩)
  | none => (⟨r.slots ++ [⟨0, .reserved⟩]⟩, ⟨r.slots.length, 0⟩)

/-- Modelled from the spec: `insert(handle, value)` associates a value with a
previously allocated handle, overwriting any prior association; it fails with
`InvalidHandle` when the handle's generation does not match the slot's current
generation or the slot is not active. -/
def ResourceRegistry.insert (r : ResourceRegistry I P) (h : Handle) (v : I) :
    Except RegistryError (ResourceRegistry I P) :=
  match r.slots[h.idx]? with
  | some s =>
      if s.generation = h.generation ∧ s.st.isActive then
        .ok ⟨r.slots.set h.idx ⟨s.generation, .filled v⟩⟩
      else
        .error .InvalidHandle
  | none => .error .InvalidHandle

/-- Modelled from the spec: `get(handle)` returns the stored internal value,
failing with `UnknownHandle` if the slot was never allocated, is not filled, or
has a different generation (the handle has since been removed). -/
def ResourceRegistry.get (r : ResourceRegistry I P) (h : Handle) :
    Except RegistryError I :=
  match r.slots[h.idx]? with
  | some s =>
      match s.st with
      | .filled v =>
          if s.generation = h.generation then .ok v else .error .UnknownHandle
      | _ => .error .UnknownHandle
  | none => .error .UnknownHandle

/-- Modelled from the spec: the `get_mut(handle).field = value` pattern — apply
an update function to the live value stored for `handle`, failing with
`UnknownHandle` exactly when `get` would fail. -/
def ResourceRegistry.modify (r : ResourceRegistry I P) (h : Handle)
    (f : I → I) : Except RegistryError (ResourceRegistry I P) :=
  match r.slots[h.idx]? with
  | some s =>
      match s.st with
      | .filled v =>
          if s.generation = h.generation then
            .ok ⟨r.slots.set h.idx ⟨s.generation, .filled (f v)⟩⟩
          else .error .UnknownHandle
      | _ => .error .UnknownHandle
  | none => .error .UnknownHandle

/-- Modelled from the spec: removal marks the live slot "pending removal"; the
value is kept until the next compaction pass invokes the teardown callback. -/
def ResourceRegistry.remove (r : ResourceRegistry I P) (h : Handle) :
    Except RegistryError (ResourceRegistry I P) :=
  match r.slots[h.idx]? with
  | some s =>
      match s.st with
      | .filled v =>
          if s.generation = h.generation then
            .ok ⟨r.slots.set h.idx ⟨s.generation, .dead v⟩⟩
          else .error .UnknownHandle
      | _ => .error .UnknownHandle
  | none => .error .UnknownHandle

/-- Compaction of one slot: a slot pending removal is reclaimed (keeping its
generation so a stale handle can never match a reused slot); every other slot
is untouched, so live slots are never reordered. -/
def freeDead (s : Slot I) : Slot I :=
  match s.st with
  | .dead _ => ⟨s.generation, .free⟩
  | _ => s

/-- The teardown-callback invocations a compaction pass performs: one
`(handle, internal value)` pair per slot pending removal, in slot order.
(The callback's public-value argument is omitted; the source's callback in
`ObjectManager::ready` ignores all its arguments.) -/
def deadEntries (i : Nat) : List (Slot I) → List (Handle × I)
  | [] => []
  | s :: rest =>
      match s.st with
      | .dead v => (⟨i, s.generation⟩, v) :: deadEntries (i + 1) rest
      | _ => deadEntries (i + 1) rest

/-- Modelled from the spec: `remove_all_dead(callback)` iterates all slots, and
for every slot marked pending removal invokes the teardown callback and frees
the slot for reuse; it returns the compacted registry together with the list of
callback invocations. -/
def ResourceRegistry.remove_all_dead (r : ResourceRegistry I P) :
    ResourceRegistry I P × List (Handle × I) :=
  (⟨r.slots.map freeDead⟩, deadEntries 0 r.slots)

/-- The live value stored in a slot, when there is one. -/
def slotValue (s : Slot I) : Option I :=
  match s.st with
  | .filled v => some v
  | _ => none

/-- Modelled from the spec: `values()` produces a snapshot copy of the live
(filled) values in slot order, not a live view. -/
def ResourceRegistry.values (r : ResourceRegistry I P) : List I :=
  r.slots.filterMap slotValue

/-- Modelled from the spec: the mesh manager wraps a registry of internal mesh
records keyed by mesh handles. -/
structure MeshManager where
  registry : ResourceRegistry InternalMesh Mesh

/-- Modelled from the spec: `MeshManager::allocate`. -/
def MeshManager.allocate (m : MeshManager) : MeshManager × Handle :=
  let t := m.registry.allocate
  (⟨t.1⟩, t.2)

/-- Modelled from the spec: `MeshManager::internal_data` looks up the internal
record of the referenced mesh; the source panics on an unknown handle, which is
modelled as `none`. -/
def MeshManager.internal_data (m : MeshManager) (raw : Handle) :
    Option InternalMesh :=
  (m.registry.get raw).toOption

/-- Modelled from the spec: the texture manager wraps a registry; its internal
representation is irrelevant to the claims. -/
structure TextureManager where
  registry : ResourceRegistry Unit Texture

/-- Modelled from the spec: `TextureManager::allocate`. -/
def TextureManager.allocate (m : TextureManager) : TextureManager × Handle :=
  let t := m.registry.allocate
  (⟨t.1⟩, t.2)

/-- Modelled from the spec: the material manager wraps a registry; its internal
representation is irrelevant to the claims. -/
structure MaterialManager where
  registry : ResourceRegistry Unit Material

/-- Modelled from the spec: `MaterialManager::allocate`. -/
def MaterialManager.allocate (m : MaterialManager) : MaterialManager × Handle :=
  let t := m.registry.allocate
  (⟨t.1⟩, t.2)

/-- The object manager (`ObjectManager` in `resources/object.rs`): wraps a
registry of `InternalObject` records. -/
structure ObjectManager where
  registry : ResourceRegistry InternalObject Object

/-- `ObjectManager::new`. -/
def ObjectManager.new : ObjectManager :=
  ⟨ResourceRegistry.new InternalObject Object⟩

/-- `ObjectManager::allocate`: delegates to the registry. -/
def ObjectManager.allocate (m : ObjectManager) : ObjectManager × Handle :=
  let t := m.registry.allocate
  (⟨t.1⟩, t.2)

/-- The `shader_object` local binding of the source's `ObjectManager::fill`:
material and transform taken from the public object; bounding sphere,
`start_idx` (`index_range.start as u32`), `count` (`(index_range.end -
index_range.start) as u32`) and `vertex_offset` (`vertex_range.start as i32`)
copied from the referenced mesh's internal record. -/
def shader_object (object : Object) (mesh : InternalMesh) : InternalObject :=
  { material := object.material
    transform := object.transform
    sphere := mesh.bounding_sphere
    start_idx := toU32 mesh.index_range.start
    count := toU32 (mesh.index_range.stop - mesh.index_range.start)
    vertex_offset := toI32 mesh.vertex_range.start }

/-- `ObjectManager::fill`: reads the referenced mesh's internal record from the
mesh manager and inserts the copied `shader_object` record under the handle. A
missing mesh record (a source-level panic) and a stale handle surface as
errors. -/
def ObjectManager.fill (m : ObjectManager) (handle : Handle) (object : Object)
    (mesh_manager : MeshManager) : Except RegistryError ObjectManager :=
  match mesh_manager.internal_data object.mesh with
  | none => .error .UnknownHandle
  | some mesh =>
      (m.registry.insert handle (shader_object object mesh)).map fun r => ⟨r⟩

/-- `ObjectManager::ready`: runs `remove_all_dead` with a no-op callback, then
returns a snapshot copy of the live internal objects. The result carries the
compacted manager, the snapshot, and the list of teardown-callback invocations
(instrumenting the source's `|_, _, _| ()` callback). -/
def ObjectManager.ready (m : ObjectManager) :
    ObjectManager × List InternalObject × List (Handle × InternalObject) :=
  let t := m.registry.remove_all_dead
  (⟨t.1⟩, t.1.values, t.2)

/-- `ObjectManager::set_object_transform`: `get_mut(handle).transform =
transform` — overwrite only the transform field of the live slot. -/
def ObjectManager.set_object_transform (m : ObjectManager) (handle : Handle)
    (transform : Mat4) : Except RegistryError ObjectManager :=
  (m.registry.modify handle fun o => { o with transform := transform }).map
    fun r => ⟨r⟩

/-- `SIZE_OF_OUTPUT_DATA` in `culling.rs`: bytes of engine-specific per-object
output data. -/
def SIZE_OF_OUTPUT_DATA : Nat := 7 * 16

/-- `SIZE_OF_INDIRECT_CALL` in `culling.rs`: bytes of one indirect draw command
(five `u32` fields). -/
def SIZE_OF_INDIRECT_CALL : Nat := 5 * 4

/-- `SIZE_OF_INDIRECT_COUNT` in `culling.rs`: bytes of the visible-count
buffer. -/
def SIZE_OF_INDIRECT_COUNT : Nat := 4

/-- An observable device operation performed by `CullingPass::prepare`: buffer
creation (with its label, byte size and `mapped_at_creation` flag), a write to
a mapped buffer, an unmap, or bind-group creation over labelled buffers. -/
inductive DeviceOp where
  | createBuffer (label : String) (size : Nat) (mapped_at_creation : Bool)
  | writeMapped (label : String) (bytes : List Nat)
  | unmap (label : String)
  | createBindGroup (label : String) (buffers : List String)
  deriving DecidableEq

/-- `CullingPassData` in `culling.rs` (the GPU bind group itself is summarized
by the buffer labels recorded in the operation trace). -/
structure CullingPassData where
  name : String
  object_count : Nat
  deriving DecidableEq

/-- `CullingPass::prepare`, embedded as the ordered trace of device operations
the source performs: create the output buffer (`SIZE_OF_OUTPUT_DATA *
object_count` bytes), the indirect buffer (`SIZE_OF_INDIRECT_CALL *
object_count` bytes) and the 4-byte count buffer mapped at creation; copy the
four zero bytes of `bytemuck::bytes_of(&0)` into the mapped count buffer;
unmap it; create the output bind group — then return the pass data. -/
def CullingPass.prepare (object_count : Nat) (name : String) :
    List DeviceOp × CullingPassData :=
  ([ .createBuffer ("object output buffer for " ++ name)
       (SIZE_OF_OUTPUT_DATA * object_count) false,
     .createBuffer ("indirect buffer for " ++ name)
       (SIZE_OF_INDIRECT_CALL * object_count) false,
     .createBuffer ("count buffer for " ++ name) SIZE_OF_INDIRECT_COUNT true,
     .writeMapped ("count buffer for " ++ name) (List.replicate 4 0),
     .unmap ("count buffer for " ++ name),
     .createBindGroup ("output bind group for " ++ name)
       [ "object output buffer for " ++ name,
         "indirect buffer for " ++ name,
         "count buffer for " ++ name ] ],
   { name := name, object_count := object_count })

/-- The workgroup count of `CullingPass::run`'s dispatch:
`(data.object_count + self.subgroup_size - 1) / self.subgroup_size`, computed
step by step in wrapping `u32` arithmetic. -/
def CullingPass.dispatchGroups (object_count subgroup_size : Nat) : Nat :=
  u32_sub (wrap32 (object_count + subgroup_size)) 1 / subgroup_size

/-- Exact ceiling division `ceil(n / s)` of natural numbers, written with the
`(n + s - 1) / s` formula the specification names. -/
def ceilDiv (n s : Nat) : Nat := (n + s - 1) / s

/-- The renderer (`Renderer` in `renderer/mod.rs`), restricted to the state the
claims observe: the instruction queue, the four managers, the device and the
options. The remaining fields (thread pool, surface, adapter info, shader and
buffer managers, UI renderer) are external collaborators carrying no
claim-relevant state. -/
structure Renderer where
  instructions : InstructionStreamPair Instruction
  mesh_manager : MeshManager
  texture_manager : TextureManager
  material_manager : MaterialManager
  object_manager : ObjectManager
  device : Nat
  options : RendererOptions

/-- `Renderer::add_mesh`: allocate a handle from the mesh manager, append one
`AddMesh` instruction carrying that handle and the payload to the producer
list, and return the handle. -/
def Renderer.add_mesh (r : Renderer) (mesh : Mesh) : Renderer × Handle :=
  let t := r.mesh_manager.allocate
  ({ r with
      mesh_manager := t.1
      instructions := r.instructions.push (.AddMesh t.2 mesh) },
   t.2)

/-- `Renderer::remove_mesh`: append one `RemoveMesh` instruction. -/
def Renderer.remove_mesh (r : Renderer) (handle : Handle) : Renderer :=
  { r with instructions := r.instructions.push (.RemoveMesh handle) }

/-- `Renderer::add_texture`: allocate a handle from the texture manager, append
one `AddTexture` instruction, return the handle. -/
def Renderer.add_texture (r : Renderer) (texture : Texture) :
    Renderer × Handle :=
  let t := r.texture_manager.allocate
  ({ r with
      texture_manager := t.1
      instructions := r.instructions.push (.AddTexture t.2 texture) },
   t.2)

/-- `Renderer::remove_texture`: append one `RemoveTexture` instruction. -/
def Renderer.remove_texture (r : Renderer) (handle : Handle) : Renderer :=
  { r with instructions := r.instructions.push (.RemoveTexture handle) }

/-- `Renderer::add_material`: allocate a handle from the material manager,
append one `AddMaterial` instruction, return the handle. -/
def Renderer.add_material (r : Renderer) (material : Material) :
    Renderer × Handle :=
  let t := r.material_manager.allocate
  ({ r with
      material_manager := t.1
      instructions := r.instructions.push (.AddMaterial t.2 material) },
   t.2)

/-- `Renderer::remove_material`: append one `RemoveMaterial` instruction. -/
def Renderer.remove_material (r : Renderer) (handle : Handle) : Renderer :=
  { r with instructions := r.instructions.push (.RemoveMaterial handle) }

/-- `Renderer::add_object`: allocate a handle from the object manager, append
one `AddObject` instruction, return the handle. -/
def Renderer.add_object (r : Renderer) (object : Object) :
    Renderer × Handle :=
  let t := r.object_manager.allocate
  ({ r with
      object_manager := t.1
      instructions := r.instructions.push (.AddObject t.2 object) },
   t.2)

/-- `Renderer::set_object_transform` (renderer level): appends one
`SetObjectTransform` instruction to the producer list. -/
def Renderer.set_object_transform (r : Renderer) (handle : Handle)
    (transform : AffineTransform) : Renderer :=
  { r with
      instructions := r.instructions.push (.SetObjectTransform handle transform) }

/-- `Renderer::remove_object`: append one `RemoveObject` instruction. -/
def Renderer.remove_object (r : Renderer) (handle : Handle) : Renderer :=
  { r with instructions := r.instructions.push (.RemoveObject handle) }

/-- `Renderer::set_options`: append one `SetOptions` instruction. -/
def Renderer.set_options (r : Renderer) (options : RendererOptions) : Renderer :=
  { r with instructions := r.instructions.push (.SetOptions options) }

/-- The initialization error taxonomy (`RendererInitializationError`): the two
variants `setup.rs` produces, plus the feature/limit negotiation failure the
spec names (`check_features` / `check_limits` are external to the sources at
hand). -/
inductive RendererInitializationError where
  | MissingAdapter
  | RequestDeviceFailed
  | UnsupportedFeaturesOrLimits
  deriving DecidableEq

/-- Modelled from the spec: the outcome of the external GPU environment during
initialization — whether an adapter is found (with an identifying value),
whether feature and limit negotiation succeed for it, and whether device
creation succeeds (with the device value). -/
structure GpuEnv where
  request_adapter : Option Nat
  check_features : Nat → Except RendererInitializationError Unit
  check_limits : Nat → Except RendererInitializationError Unit
  request_device : Nat → Option Nat

/-- `create_renderer` in `renderer/setup.rs`: request an adapter (failing with
`MissingAdapter` when none is compatible), negotiate features and limits,
request a device (`RequestDeviceFailed` on failure), then construct the
renderer with an empty instruction queue and fresh managers. In every error
case no `Renderer` value is constructed. -/
def create_renderer (env : GpuEnv) (options : RendererOptions) :
    Except RendererInitializationError Renderer :=
  match env.request_adapter with
  | none => .error .MissingAdapter
  | some adapter =>
      match env.check_features adapter with
      | .error e => .error e
      | .ok _ =>
          match env.check_limits adapter with
          | .error e => .error e
          | .ok _ =>
              match env.request_device adapter with
              | none => .error .RequestDeviceFailed
              | some device =>
                  .ok
                    { instructions := InstructionStreamPair.new Instruction
                      mesh_manager := ⟨ResourceRegistry.new InternalMesh Mesh⟩
                      texture_manager := ⟨ResourceRegistry.new Unit Texture⟩
                      material_manager := ⟨ResourceRegistry.new Unit Material⟩
                      object_manager := ObjectManager.new
                      device := device
                      options := options }

/-- A concrete trace exercising the queue-losslessness theorem. -/
def c1TestTrace : List (QEvent Nat) :=
  [.append 1, .append 2, .swap, .drain, .append 3, .swap, .drain]

/-- A concrete internal mesh record used by the witnesses: a cube-style mesh
with a 36-entry index range. -/
def testMesh : InternalMesh :=
  { vertex_range := ⟨5, 29⟩
    index_range := ⟨10, 46⟩
    bounding_sphere := ⟨0, 0, 0, 1⟩ }

/-- A mesh manager holding `testMesh` at handle (0, 0). -/
def testMeshManager : MeshManager :=
  ⟨⟨[⟨0, .filled testMesh⟩]⟩⟩

/-- A public object referencing the test mesh. -/
def testObject : Object :=
  { mesh := ⟨0, 0⟩, material := ⟨7, 0⟩, transform := ⟨[1, 2]⟩ }

/-- An object manager with one freshly allocated (reserved) slot. -/
def testObjectManager : ObjectManager :=
  ⟨⟨[⟨0, .reserved⟩]⟩⟩

/-- A concrete internal object used by the witnesses. -/
def testInternalObject : InternalObject :=
  { material := ⟨7, 0⟩
    transform := ⟨[1, 2]⟩
    sphere := ⟨0, 0, 0, 1⟩
    start_idx := 10
    count := 36
    vertex_offset := 5 }

/-- A second concrete internal object, stored in a slot pending removal. -/
def testInternalObject2 : InternalObject :=
  { material := ⟨8, 0⟩
    transform := ⟨[3]⟩
    sphere := ⟨1, 1, 1, 2⟩
    start_idx := 0
    count := 6
    vertex_offset := 0 }

/-- An object manager with one live object and one slot pending removal. -/
def testObjectManager2 : ObjectManager :=
  ⟨⟨[⟨0, .filled testInternalObject⟩, ⟨1, .dead testInternalObject2⟩]⟩⟩

/-- A GPU environment reporting no compatible adapter. -/
def envNoAdapter : GpuEnv :=
  { request_adapter := none
    check_features := fun _ => .ok ()
    check_limits := fun _ => .ok ()
    request_device := fun _ => some 1 }

/-- A GPU environment whose device request fails after successful feature and
limit negotiation. -/
def envDeviceFail : GpuEnv :=
  { request_adapter := some 0
    check_features := fun _ => .ok ()
    check_limits := fun _ => .ok ()
    request_device := fun _ => none }

theorem qfoldl_flatten (es : List (QEvent α)) (p : InstructionStreamPair α)
    (bs : List (List α)) (h : drainedBeforeSwaps p es = true) :
    (List.foldl qstep ⟨p, bs⟩ es).batches.flatten
      ++ (List.foldl qstep ⟨p, bs⟩ es).pair.consumer
      ++ (List.foldl qstep ⟨p, bs⟩ es).pair.producer
    = bs.flatten ++ p.consumer ++ p.producer ++ appendsOf es := by
  induction es generalizing p bs with
  | nil => simp [appendsOf]
  | cons e rest ih =>
    cases e with
    | append a =>
        simp only [drainedBeforeSwaps] at h
        simp only [List.foldl_cons, qstep]
        rw [ih (p.push a) bs h]
        simp [InstructionStreamPair.push, appendsOf, List.filterMap_cons]
    | swap =>
        simp only [drainedBeforeSwaps, Bool.and_eq_true] at h
        obtain ⟨h1, h2⟩ := h
        have h1' : p.consumer = [] := by
          cases hc : p.consumer with
          | nil => rfl
          | cons x xs => rw [hc] at h1; simp [List.isEmpty] at h1
        simp only [List.foldl_cons, qstep]
        rw [ih p.swap bs h2]
        simp [InstructionStreamPair.swap, h1', appendsOf, List.filterMap_cons]
    | drain =>
        simp only [drainedBeforeSwaps] at h
        simp only [List.foldl_cons, qstep]
        rw [ih { producer := p.producer, consumer := [] } (bs ++ [p.consumer]) h]
        simp [appendsOf, List.filterMap_cons, List.flatten_append,
          List.append_assoc]

/-- C1 — Queue losslessness: for every sequence of producer appends
interleaved with `swap()` calls and render-loop drains, provided the consumer
list has been drained and cleared before each swap (`drainedBeforeSwaps`), the
concatenation of the drained batches followed by the still-pending consumer
and producer contents equals the appended instructions in their original
relative order — so every appended instruction lands in exactly one drained
batch (or is still pending), never lost, never duplicated, never reordered; in
particular once the queue is fully flushed the drained batches are exactly the
appended sequence. -/
theorem queue_lossless (es : List (QEvent α))
    (h : drainedBeforeSwaps (InstructionStreamPair.new α) es = true) :
    ((qrun es).batches.flatten ++ (qrun es).pair.consumer
        ++ (qrun es).pair.producer = appendsOf es)
    ∧ ((qrun es).pair.consumer = [] → (qrun es).pair.producer = [] →
        (qrun es).batches.flatten = appendsOf es) := by
  have key := qfoldl_flatten es (InstructionStreamPair.new α) [] h
  have key' : (qrun es).batches.flatten ++ (qrun es).pair.consumer
      ++ (qrun es).pair.producer = appendsOf es := by
    simpa [qrun, InstructionStreamPair.new] using key
  refine ⟨key', fun h1 h2 => ?_⟩
  rw [h1, h2, List.append_nil, List.append_nil] at key'
  exact key'

/-- Witness for C1 at a concrete trace of three appends and two
swap/drain frames. -/
theorem queue_lossless_witness :
    drainedBeforeSwaps (InstructionStreamPair.new Nat) c1TestTrace = true
    ∧ (((qrun c1TestTrace).batches.flatten ++ (qrun c1TestTrace).pair.consumer
          ++ (qrun c1TestTrace).pair.producer = appendsOf c1TestTrace)
        ∧ ((qrun c1TestTrace).pair.consumer = [] →
            (qrun c1TestTrace).pair.producer = [] →
            (qrun c1TestTrace).batches.flatten = appendsOf c1TestTrace)) :=
  ⟨by decide, queue_lossless c1TestTrace (by decide)⟩

/-- C9 — Swap does not clear: `InstructionStreamPair.swap` unconditionally
exchanges the two lists, clearing neither; when the consumer list is non-empty
at swap time those leftover instructions move into the producer list, and two
render-loop frames later (each frame being swap-then-drain) the drained batch
is exactly those leftovers again — so exactly-once delivery holds only under
the drained-before-swap precondition. -/
theorem swap_redelivers_undrained (p : InstructionStreamPair α)
    (h : p.consumer ≠ []) :
    p.swap.producer = p.consumer ∧ p.swap.consumer = p.producer
    ∧ (renderFrame (renderFrame p).1).2 = p.consumer
    ∧ (renderFrame (renderFrame p).1).2 ≠ [] := by
  refine ⟨rfl, rfl, rfl, ?_⟩
  simpa [renderFrame, InstructionStreamPair.swap] using h

/-- Witness for C9: a queue whose consumer list still holds one undrained
instruction at swap time. -/
theorem swap_redelivers_undrained_witness :
    let p : InstructionStreamPair Instruction :=
      { producer := [.RemoveMesh ⟨1, 0⟩], consumer := [.RemoveMesh ⟨2, 0⟩] }
    p.consumer ≠ []
    ∧ (p.swap.producer = p.consumer ∧ p.swap.consumer = p.producer
        ∧ (renderFrame (renderFrame p).1).2 = p.consumer
        ∧ (renderFrame (renderFrame p).1).2 ≠ []) :=
  ⟨by decide, swap_redelivers_undrained _ (by decide)⟩

theorem u32_pred_eq (a : Nat) (ha : 1 ≤ a) :
    u32_sub (wrap32 a) 1 = (a - 1) % U32_MOD := by
  unfold u32_sub wrap32
  have hM : 1 ≤ U32_MOD := Nat.one_le_two_pow
  have h1 : a % U32_MOD + U32_MOD - 1 = a % U32_MOD + (U32_MOD - 1) := by
    omega
  rw [h1, Nat.mod_add_mod]
  have h2 : a + (U32_MOD - 1) = (a - 1) + U32_MOD := by omega
  rw [h2, Nat.add_mod_right]

theorem dispatchGroups_eq (N s : Nat) (hs : 1 ≤ s) :
    CullingPass.dispatchGroups N s = (N + s - 1) % U32_MOD / s := by
  unfold CullingPass.dispatchGroups
  rw [u32_pred_eq (N + s) (by omega)]

theorem ceilDiv_spec (n s : Nat) (hs : 1 ≤ s) :
    n ≤ ceilDiv n s * s ∧ ∀ k, n ≤ k * s → ceilDiv n s ≤ k := by
  have hd := Nat.div_add_mod (n + s - 1) s
  have hm := Nat.mod_lt (n + s - 1) (show 0 < s by omega)
  constructor
  · unfold ceilDiv
    rw [Nat.mul_comm]
    omega
  · intro k hk
    have h5 : (n + s - 1) / s < k + 1 := by
      rw [Nat.div_lt_iff_lt_mul (show 0 < s by omega), Nat.succ_mul]
      omega
    unfold ceilDiv
    omega

/-- C10 — Dispatch-count overflow bound: the workgroup count of
`CullingPass::run` is `(object_count + subgroup_size - 1) / subgroup_size`
computed in wrapping `u32` arithmetic, so it equals the exact ceiling quotient
whenever `object_count ≤ 2^32 - subgroup_size`, and wraps to strictly fewer
groups than the ceiling for every larger `u32` object count. -/
theorem dispatch_overflow_bound (N s : Nat) (hs : 1 ≤ s) (hN : N < U32_MOD)
    (hsU : s < U32_MOD) :
    (N + s ≤ U32_MOD → CullingPass.dispatchGroups N s = ceilDiv N s)
    ∧ (U32_MOD < N + s → CullingPass.dispatchGroups N s < ceilDiv N s) := by
  constructor
  · intro hle
    rw [dispatchGroups_eq N s hs]
    unfold ceilDiv
    congr 1
    exact Nat.mod_eq_of_lt (by omega)
  · intro hgt
    rw [dispatchGroups_eq N s hs]
    unfold ceilDiv
    have hmod : (N + s - 1) % U32_MOD = N + s - 1 - U32_MOD := by
      rw [Nat.mod_eq_sub_mod (by omega : U32_MOD ≤ N + s - 1)]
      exact Nat.mod_eq_of_lt (by omega)
    rw [hmod, Nat.div_lt_iff_lt_mul (show 0 < s by omega)]
    have hd := Nat.div_add_mod (N + s - 1) s
    have hm := Nat.mod_lt (N + s - 1) (show 0 < s by omega)
    rw [Nat.mul_comm]
    generalize (N + s - 1) / s = q at *
    generalize s * q = t at *
    omega

/-- Witness for C10: subgroup size 32 with an in-range count (100) and with
the maximal `u32` count, where the wrap makes the dispatch fall short. -/
theorem dispatch_overflow_bound_witness :
    (1 ≤ 32 ∧ (100 : Nat) < U32_MOD ∧ (32 : Nat) < U32_MOD
      ∧ (1 ≤ 32 ∧ (4294967295 : Nat) < U32_MOD ∧ (32 : Nat) < U32_MOD))
    ∧ ((100 + 32 ≤ U32_MOD → CullingPass.dispatchGroups 100 32 = ceilDiv 100 32)
        ∧ (U32_MOD < 100 + 32 →
            CullingPass.dispatchGroups 100 32 < ceilDiv 100 32))
    ∧ ((4294967295 + 32 ≤ U32_MOD →
          CullingPass.dispatchGroups 4294967295 32 = ceilDiv 4294967295 32)
        ∧ (U32_MOD < 4294967295 + 32 →
            CullingPass.dispatchGroups 4294967295 32 < ceilDiv 4294967295 32)) :=
  ⟨⟨by decide, by decide, by decide, by decide, by decide, by decide⟩,
   dispatch_overflow_bound 100 32 (by decide) (by decide) (by decide),
   dispatch_overflow_bound 4294967295 32 (by decide) (by decide) (by decide)⟩

/-- C2 counterexample: at `object_count = 2^32 - 1` and `subgroup_size = 32`
the `u32` computation in `CullingPass::run` wraps and dispatches 0 workgroups,
not the claimed `ceil(N / s) = 134217728`, so objects are skipped. -/
theorem ceiling_dispatch_counterexample :
    CullingPass.dispatchGroups 4294967295 32 = 0
    ∧ ceilDiv 4294967295 32 = 134217728
    ∧ CullingPass.dispatchGroups 4294967295 32 ≠ ceilDiv 4294967295 32 := by
  refine ⟨by decide, by decide, by decide⟩

/-- C2 (amended) — Ceiling dispatch below the wrap bound: for every
`subgroup_size ≥ 1` and every `object_count ≤ 2^32 - subgroup_size`,
`CullingPass::run` dispatches exactly `ceil(N / s)` one-dimensional workgroups
(the least `k` with `N ≤ k * s`, computed as `(N + s - 1) / s`), so every
object index below `N` is covered by some group; in particular `N = 0`
dispatches zero groups. -/
theorem ceiling_dispatch_correct (N s : Nat) (hs : 1 ≤ s)
    (hle : N + s ≤ U32_MOD) :
    CullingPass.dispatchGroups N s = ceilDiv N s
    ∧ N ≤ ceilDiv N s * s
    ∧ (∀ k, N ≤ k * s → ceilDiv N s ≤ k)
    ∧ (∀ i, i < N → i / s < CullingPass.dispatchGroups N s)
    ∧ (N = 0 → CullingPass.dispatchGroups N s = 0) := by
  have heq : CullingPass.dispatchGroups N s = ceilDiv N s := by
    rw [dispatchGroups_eq N s hs]
    unfold ceilDiv
    congr 1
    exact Nat.mod_eq_of_lt (by omega)
  have hspec := ceilDiv_spec N s hs
  refine ⟨heq, hspec.1, hspec.2, ?_, ?_⟩
  · intro i hi
    rw [heq, Nat.div_lt_iff_lt_mul (show 0 < s by omega)]
    exact lt_of_lt_of_le hi hspec.1
  · intro h0
    subst h0
    rw [heq]
    unfold ceilDiv
    exact Nat.div_eq_of_lt (by omega)

/-- Witness for the amended C2 at the spec's own edge case `N = 1`,
`subgroup_size = 32`. -/
theorem ceiling_dispatch_correct_witness :
    (1 ≤ 32 ∧ 1 + 32 ≤ U32_MOD)
    ∧ (CullingPass.dispatchGroups 1 32 = ceilDiv 1 32
        ∧ 1 ≤ ceilDiv 1 32 * 32
        ∧ (∀ k, 1 ≤ k * 32 → ceilDiv 1 32 ≤ k)
        ∧ (∀ i, i < 1 → i / 32 < CullingPass.dispatchGroups 1 32)
        ∧ ((1 : Nat) = 0 → CullingPass.dispatchGroups 1 32 = 0)) :=
  ⟨⟨by decide, by decide⟩, ceiling_dispatch_correct 1 32 (by decide) (by decide)⟩

/-- C3 — Culling buffer postconditions: for every object count `N` (including
`N = 0`, where both sized buffers are zero bytes), `CullingPass::prepare`
creates an indirect buffer of exactly `5 * 4 = 20` bytes per object, an output
buffer of `7 * 16 = 112` bytes per object, and a 4-byte count buffer mapped at
creation whose contents are explicitly overwritten with four zero bytes at a
trace position strictly before its unmap — hence before any dispatch can read
it. -/
theorem culling_prepare_buffers (N : Nat) (name : String) :
    DeviceOp.createBuffer ("object output buffer for " ++ name) (7 * 16 * N)
        false ∈ (CullingPass.prepare N name).1
    ∧ DeviceOp.createBuffer ("indirect buffer for " ++ name) (5 * 4 * N)
        false ∈ (CullingPass.prepare N name).1
    ∧ DeviceOp.createBuffer ("count buffer for " ++ name) 4 true
        ∈ (CullingPass.prepare N name).1
    ∧ (∃ i j : Nat, i < j
        ∧ (CullingPass.prepare N name).1[i]?
            = some (DeviceOp.writeMapped ("count buffer for " ++ name)
                (List.replicate 4 0))
        ∧ (CullingPass.prepare N name).1[j]?
            = some (DeviceOp.unmap ("count buffer for " ++ name)))
    ∧ (CullingPass.prepare N name).2.object_count = N := by
  refine ⟨?_, ?_, ?_, ⟨3, 4, by decide, rfl, rfl⟩, rfl⟩ <;>
    simp [CullingPass.prepare, SIZE_OF_OUTPUT_DATA, SIZE_OF_INDIRECT_CALL,
      SIZE_OF_INDIRECT_COUNT]

theorem get_ok_elim (r : ResourceRegistry I P) (h : Handle) (v : I)
    (hget : r.get h = .ok v) :
    r.slots[h.idx]? = some ⟨h.generation, .filled v⟩ := by
  unfold ResourceRegistry.get at hget
  split at hget
  next s hs =>
    split at hget
    next w hw =>
      split at hget
      next hgen =>
        injection hget with hv
        rw [hs]
        have hse : s = ⟨h.generation, .filled v⟩ := by
          cases s
          simp_all
        rw [hse]
      next hgen => simp at hget
    next x hx => simp at hget
  next hs => simp at hget

theorem get_of_slot (r : ResourceRegistry I P) (h : Handle) (v : I)
    (hs : r.slots[h.idx]? = some ⟨h.generation, .filled v⟩) :
    r.get h = .ok v := by
  unfold ResourceRegistry.get
  rw [hs]
  simp

theorem get_after_modify (r : ResourceRegistry I P) (h : Handle) (f : I → I)
    (v : I) (hget : r.get h = .ok v) :
    ∃ r', r.modify h f = .ok r'
      ∧ r'.get h = .ok (f v)
      ∧ ∀ h' : Handle, h' ≠ h → r'.get h' = r.get h' := by
  have hs := get_ok_elim r h v hget
  have hlt : h.idx < r.slots.length := (List.getElem?_eq_some.mp hs).1
  refine ⟨⟨r.slots.set h.idx ⟨h.generation, .filled (f v)⟩⟩, ?_, ?_, ?_⟩
  · unfold ResourceRegistry.modify
    rw [hs]
    simp
  · exact get_of_slot _ h (f v) (by rw [List.getElem?_set_self hlt])
  · intro h' hne
    unfold ResourceRegistry.get
    by_cases hidx : h'.idx = h.idx
    · have hgen : h.generation ≠ h'.generation := by
        intro hg
        exact hne (by cases h; cases h'; simp_all)
      rw [hidx, List.getElem?_set_self hlt, hs]
      simp [hgen]
    · rw [List.getElem?_set_ne (fun e => hidx e.symm)]

theorem get_after_insert (r : ResourceRegistry I P) (h : Handle) (v : I)
    (r' : ResourceRegistry I P) (hins : r.insert h v = .ok r') :
    r'.get h = .ok v := by
  unfold ResourceRegistry.insert at hins
  split at hins
  next s hs =>
    split at hins
    next hc =>
      injection hins with hr
      subst hr
      have hlt : h.idx < r.slots.length := (List.getElem?_eq_some.mp hs).1
      refine get_of_slot _ h v ?_
      rw [List.getElem?_set_self hlt, hc.1]
    next hc => simp at hins
  next hs => simp at hins

theorem get_mem_values (r : ResourceRegistry I P) (h : Handle) (v : I)
    (hget : r.get h = .ok v) : v ∈ r.values := by
  have hs := get_ok_elim r h v hget
  unfold ResourceRegistry.values
  rw [List.mem_filterMap]
  exact ⟨_, List.getElem?_mem hs, rfl⟩

theorem freeDead_not_dead (s : Slot I) : (freeDead s).st.isDead = false := by
  obtain ⟨g, st⟩ := s
  cases st <;> simp [freeDead, SlotState.isDead]

theorem map_freeDead_not_dead (l : List (Slot I)) :
    ∀ s ∈ l.map freeDead, s.st.isDead = false := by
  intro s hs
  rw [List.mem_map] at hs
  obtain ⟨u, -, rfl⟩ := hs
  exact freeDead_not_dead u

theorem map_freeDead_of_not_dead (l : List (Slot I))
    (h : ∀ s ∈ l, s.st.isDead = false) : l.map freeDead = l := by
  induction l with
  | nil => rfl
  | cons s rest ih =>
      have hs := h s (List.mem_cons_self s rest)
      have hfix : freeDead s = s := by
        obtain ⟨g, st⟩ := s
        cases st <;> simp_all [freeDead, SlotState.isDead]
      rw [List.map_cons, hfix, ih fun u hu => h u (List.mem_cons_of_mem s hu)]

theorem deadEntries_of_not_dead (l : List (Slot I))
    (h : ∀ s ∈ l, s.st.isDead = false) : ∀ i, deadEntries i l = [] := by
  induction l with
  | nil => intro i; rfl
  | cons s rest ih =>
      intro i
      obtain ⟨g, st⟩ := s
      cases st with
      | dead v =>
          have := h _ (List.mem_cons_self _ _)
          simp [SlotState.isDead] at this
      | reserved =>
          simp only [deadEntries]
          exact ih (fun u hu => h u (List.mem_cons_of_mem _ hu)) (i + 1)
      | filled v =>
          simp only [deadEntries]
          exact ih (fun u hu => h u (List.mem_cons_of_mem _ hu)) (i + 1)
      | free =>
          simp only [deadEntries]
          exact ih (fun u hu => h u (List.mem_cons_of_mem _ hu)) (i + 1)

theorem get_remove_all_dead (r : ResourceRegistry I P) (h : Handle) (v : I)
    (hget : r.get h = .ok v) : (r.remove_all_dead).1.get h = .ok v := by
  have hs := get_ok_elim r h v hget
  refine get_of_slot _ h v ?_
  show (r.slots.map freeDead)[h.idx]? = _
  rw [List.getElem?_map, hs]
  rfl

theorem allocSlots_filterMap : ∀ (l l' : List (Slot I)) (i g : Nat),
    allocSlots l = some (l', i, g) →
    l'.filterMap slotValue = l.filterMap slotValue := by
  intro l
  induction l with
  | nil => intro l' i g hl; simp [allocSlots] at hl
  | cons s rest ih =>
      intro l' i g hl
      simp only [allocSlots] at hl
      by_cases hf : s.st.isFree = true
      · rw [if_pos hf] at hl
        simp only [Option.some.injEq, Prod.mk.injEq] at hl
        obtain ⟨h1, -, -⟩ := hl
        subst h1
        obtain ⟨sg, sst⟩ := s
        cases sst <;>
          simp_all [slotValue, SlotState.isFree, List.filterMap_cons]
      · rw [if_neg hf] at hl
        cases hr : allocSlots rest with
        | none => rw [hr] at hl; simp at hl
        | some tr =>
            obtain ⟨rest', i', g'⟩ := tr
            rw [hr] at hl
            simp only [Option.some.injEq, Prod.mk.injEq] at hl
            obtain ⟨h1, -, -⟩ := hl
            subst h1
            simp [List.filterMap_cons, ih rest' i' g' hr]

theorem values_allocate (r : ResourceRegistry I P) :
    (r.allocate).1.values = r.values := by
  unfold ResourceRegistry.allocate
  cases h : allocSlots r.slots with
  | none =>
      simp [ResourceRegistry.values, List.filterMap_append, slotValue]
  | some t =>
      obtain ⟨l', i, g⟩ := t
      exact allocSlots_filterMap r.slots l' i g h

/-- C4 — Fill-time copy from the mesh: an object stored by
`ObjectManager::fill` takes its material and transform from the public object
and its bounding sphere, `start_idx` (the mesh's `index_range.start`), `count`
(`index_range.end - index_range.start`) and `vertex_offset`
(`vertex_range.start`) from the referenced mesh's internal record as it was at
fill time; the stored record is readable afterwards through the object manager
alone (`get`/`ready` take no mesh manager), so the copied fields are never
re-derived if the mesh changes later. The bound hypotheses make the `as u32` /
`as i32` casts of the source the identity. -/
theorem fill_copies_mesh_snapshot (m : ObjectManager) (handle : Handle)
    (object : Object) (mm : MeshManager) (mesh : InternalMesh)
    (m' : ObjectManager)
    (hmesh : mm.internal_data object.mesh = some mesh)
    (hstart : mesh.index_range.start < U32_MOD)
    (hcount : mesh.index_range.stop - mesh.index_range.start < U32_MOD)
    (hvert : mesh.vertex_range.start < 2 ^ 31)
    (hfill : m.fill handle object mm = .ok m') :
    m'.registry.get handle = .ok
      { material := object.material
        transform := object.transform
        sphere := mesh.bounding_sphere
        start_idx := mesh.index_range.start
        count := mesh.index_range.stop - mesh.index_range.start
        vertex_offset := (mesh.vertex_range.start : Int) }
    ∧ ({ material := object.material
         transform := object.transform
         sphere := mesh.bounding_sphere
         start_idx := mesh.index_range.start
         count := mesh.index_range.stop - mesh.index_range.start
         vertex_offset := (mesh.vertex_range.start : Int) } : InternalObject)
        ∈ m'.ready.2.1 := by
  unfold ObjectManager.fill at hfill
  split at hfill
  next hnone => rw [hmesh] at hnone; simp at hnone
  next mesh' hsome =>
    rw [hmesh] at hsome
    injection hsome with hme
    subst hme
    cases hins : m.registry.insert handle (shader_object object mesh) with
    | error e => rw [hins] at hfill; simp [Except.map] at hfill
    | ok r' =>
        rw [hins] at hfill
        simp only [Except.map] at hfill
        injection hfill with hm'
        subst hm'
        have hget := get_after_insert _ handle _ r' hins
        have h31 : mesh.vertex_range.start < U32_MOD :=
          lt_trans hvert (by norm_num [U32_MOD])
        have hrec : shader_object object mesh
            = { material := object.material
                transform := object.transform
                sphere := mesh.bounding_sphere
                start_idx := mesh.index_range.start
                count := mesh.index_range.stop - mesh.index_range.start
                vertex_offset := (mesh.vertex_range.start : Int) } := by
          simp only [shader_object, toU32, toI32]
          rw [Nat.mod_eq_of_lt hstart, Nat.mod_eq_of_lt hcount,
            Nat.mod_eq_of_lt h31, if_pos hvert]
        rw [hrec] at hget
        refine ⟨hget, ?_⟩
        exact get_mem_values _ handle _ (get_remove_all_dead r' handle _ hget)

/-- Witness for C4: filling a reserved slot from a one-mesh mesh manager, with
the resulting stored record computed explicitly. -/
theorem fill_copies_mesh_snapshot_witness :
    testMeshManager.internal_data testObject.mesh = some testMesh
    ∧ testMesh.index_range.start < U32_MOD
    ∧ testMesh.index_range.stop - testMesh.index_range.start < U32_MOD
    ∧ testMesh.vertex_range.start < 2 ^ 31
    ∧ testObjectManager.fill ⟨0, 0⟩ testObject testMeshManager
        = .ok ⟨⟨[⟨0, .filled testInternalObject⟩]⟩⟩
    ∧ ((⟨⟨[⟨0, .filled testInternalObject⟩]⟩⟩ : ObjectManager).registry.get
          ⟨0, 0⟩
        = .ok
          { material := testObject.material
            transform := testObject.transform
            sphere := testMesh.bounding_sphere
            start_idx := testMesh.index_range.start
            count := testMesh.index_range.stop - testMesh.index_range.start
            vertex_offset := (testMesh.vertex_range.start : Int) }
      ∧ ({ material := testObject.material
           transform := testObject.transform
           sphere := testMesh.bounding_sphere
           start_idx := testMesh.index_range.start
           count := testMesh.index_range.stop - testMesh.index_range.start
           vertex_offset := (testMesh.vertex_range.start : Int) } :
              InternalObject)
          ∈ (⟨⟨[⟨0, .filled testInternalObject⟩]⟩⟩ : ObjectManager).ready.2.1) :=
  ⟨rfl, by decide, by decide, by decide, rfl,
   fill_copies_mesh_snapshot testObjectManager ⟨0, 0⟩ testObject
     testMeshManager testMesh ⟨⟨[⟨0, .filled testInternalObject⟩]⟩⟩
     rfl (by decide) (by decide) (by decide) rfl⟩

/-- C5 — Transform-only mutation: for a live object handle,
`ObjectManager::set_object_transform` succeeds and overwrites only the
transform field of that handle's stored record — material, bounding sphere,
`start_idx`, `count` and `vertex_offset` are unchanged, and every other
registry slot reads back exactly as before. The operation acts directly on the
live slot through `get_mut`, needing neither the instruction queue's
`fill`/`insert` pattern nor a mesh-manager cross-reference. -/
theorem set_object_transform_only (m : ObjectManager) (h : Handle) (t : Mat4)
    (v : InternalObject) (hget : m.registry.get h = .ok v) :
    ∃ m', m.set_object_transform h t = .ok m'
      ∧ m'.registry.get h = .ok { v with transform := t }
      ∧ ({ v with transform := t }).material = v.material
      ∧ ({ v with transform := t }).sphere = v.sphere
      ∧ ({ v with transform := t }).start_idx = v.start_idx
      ∧ ({ v with transform := t }).count = v.count
      ∧ ({ v with transform := t }).vertex_offset = v.vertex_offset
      ∧ ∀ h' : Handle, h' ≠ h → m'.registry.get h' = m.registry.get h' := by
  obtain ⟨r', hmod, hget', hother⟩ :=
    get_after_modify m.registry h (fun o => { o with transform := t }) v hget
  refine ⟨⟨r'⟩, ?_, hget', rfl, rfl, rfl, rfl, rfl, hother⟩
  unfold ObjectManager.set_object_transform
  rw [hmod]
  rfl

/-- Witness for C5: overwriting the transform of the live object in a
two-slot manager. -/
theorem set_object_transform_only_witness :
    testObjectManager2.registry.get ⟨0, 0⟩ = .ok testInternalObject
    ∧ ∃ m', testObjectManager2.set_object_transform ⟨0, 0⟩ ⟨[9]⟩ = .ok m'
        ∧ m'.registry.get ⟨0, 0⟩
            = .ok { testInternalObject with transform := ⟨[9]⟩ }
        ∧ ({ testInternalObject with transform := ⟨[9]⟩ }).material
            = testInternalObject.material
        ∧ ({ testInternalObject with transform := ⟨[9]⟩ }).sphere
            = testInternalObject.sphere
        ∧ ({ testInternalObject with transform := ⟨[9]⟩ }).start_idx
            = testInternalObject.start_idx
        ∧ ({ testInternalObject with transform := ⟨[9]⟩ }).count
            = testInternalObject.count
        ∧ ({ testInternalObject with transform := ⟨[9]⟩ }).vertex_offset
            = testInternalObject.vertex_offset
        ∧ ∀ h' : Handle, h' ≠ ⟨0, 0⟩ →
            m'.registry.get h' = testObjectManager2.registry.get h' :=
  ⟨rfl, set_object_transform_only testObjectManager2 ⟨0, 0⟩ ⟨[9]⟩
    testInternalObject rfl⟩

/-- C7 — Compaction idempotence and snapshot reads: after one
`ObjectManager::ready`, a second `ready` with no instructions applied in
between invokes the teardown callback for no slot, leaves the manager
unchanged and returns an equal sequence; and the returned sequence is a
snapshot — a live value read from the compacted manager is an element of the
returned vector, while a subsequent `set_object_transform` changes only the
manager's stored record, not that vector's element. -/
theorem ready_idempotent_snapshot (m : ObjectManager) (h : Handle) (t : Mat4) :
    (m.ready.1).ready.2.2 = []
    ∧ (m.ready.1).ready.1 = m.ready.1
    ∧ (m.ready.1).ready.2.1 = m.ready.2.1
    ∧ ∀ v m2, (m.ready.1).registry.get h = .ok v →
        (m.ready.1).set_object_transform h t = .ok m2 →
        v ∈ m.ready.2.1 ∧ m2.registry.get h = .ok { v with transform := t } := by
  have hnd := map_freeDead_not_dead m.registry.slots
  have hmap : (m.registry.slots.map freeDead).map freeDead
      = m.registry.slots.map freeDead := map_freeDead_of_not_dead _ hnd
  have hde : deadEntries 0 (m.registry.slots.map freeDead) = [] :=
    deadEntries_of_not_dead _ hnd 0
  refine ⟨hde, ?_, ?_, ?_⟩
  · show (⟨⟨(m.registry.slots.map freeDead).map freeDead⟩⟩ : ObjectManager)
      = ⟨⟨m.registry.slots.map freeDead⟩⟩
    rw [hmap]
  · show ResourceRegistry.values (P := Object)
        ⟨(m.registry.slots.map freeDead).map freeDead⟩
      = ResourceRegistry.values (P := Object) ⟨m.registry.slots.map freeDead⟩
    rw [hmap]
  · intro v m2 hget hset
    refine ⟨get_mem_values _ h v hget, ?_⟩
    obtain ⟨r', hmod, hget', -⟩ :=
      get_after_modify (m.ready.1).registry h
        (fun o => { o with transform := t }) v hget
    unfold ObjectManager.set_object_transform at hset
    rw [hmod] at hset
    simp only [Except.map] at hset
    injection hset with hm2
    subst hm2
    exact hget'

/-- Witness for C7: a manager with one live object and one slot pending
removal; the second ready performs no teardown, and a transform mutation after
ready leaves the snapshot element intact. -/
theorem ready_idempotent_snapshot_witness :
    ((testObjectManager2.ready.1).registry.get ⟨0, 0⟩ = .ok testInternalObject
      ∧ (testObjectManager2.ready.1).set_object_transform ⟨0, 0⟩ ⟨[9]⟩
          = .ok ⟨⟨[⟨0, .filled { testInternalObject with transform := ⟨[9]⟩ }⟩,
                   ⟨1, .free⟩]⟩⟩)
    ∧ (testInternalObject ∈ testObjectManager2.ready.2.1
        ∧ (⟨⟨[⟨0, .filled { testInternalObject with transform := ⟨[9]⟩ }⟩,
              ⟨1, .free⟩]⟩⟩ : ObjectManager).registry.get ⟨0, 0⟩
            = .ok { testInternalObject with transform := ⟨[9]⟩ }) :=
  ⟨⟨rfl, rfl⟩,
   (ready_idempotent_snapshot testObjectManager2 ⟨0, 0⟩ ⟨[9]⟩).2.2.2
     testInternalObject
     ⟨⟨[⟨0, .filled { testInternalObject with transform := ⟨[9]⟩ }⟩,
        ⟨1, .free⟩]⟩⟩ rfl rfl⟩

/-- C6 — Enqueue-only public API: each of `Renderer::add_mesh`,
`add_texture`, `add_material` and `add_object` allocates a handle from the
corresponding manager, appends exactly one matching `Add*` instruction
carrying that same handle and the payload to the end of the producer list, and
returns that handle; the consumer list and every other manager are untouched,
and the allocating manager changes only by the handle allocation — its stored
live values are unchanged until the instruction is consumed at a later
swap. -/
theorem add_api_enqueue_only (r : Renderer) (mesh : Mesh) (texture : Texture)
    (material : Material) (object : Object) :
    ((r.add_mesh mesh).2 = r.mesh_manager.allocate.2
      ∧ (r.add_mesh mesh).1.instructions.producer
          = r.instructions.producer ++ [.AddMesh (r.add_mesh mesh).2 mesh]
      ∧ (r.add_mesh mesh).1.instructions.consumer = r.instructions.consumer
      ∧ (r.add_mesh mesh).1.mesh_manager = r.mesh_manager.allocate.1
      ∧ (r.add_mesh mesh).1.mesh_manager.registry.values
          = r.mesh_manager.registry.values
      ∧ (r.add_mesh mesh).1.texture_manager = r.texture_manager
      ∧ (r.add_mesh mesh).1.material_manager = r.material_manager
      ∧ (r.add_mesh mesh).1.object_manager = r.object_manager)
    ∧ ((r.add_texture texture).2 = r.texture_manager.allocate.2
      ∧ (r.add_texture texture).1.instructions.producer
          = r.instructions.producer
            ++ [.AddTexture (r.add_texture texture).2 texture]
      ∧ (r.add_texture texture).1.instructions.consumer
          = r.instructions.consumer
      ∧ (r.add_texture texture).1.texture_manager
          = r.texture_manager.allocate.1
      ∧ (r.add_texture texture).1.texture_manager.registry.values
          = r.texture_manager.registry.values
      ∧ (r.add_texture texture).1.mesh_manager = r.mesh_manager
      ∧ (r.add_texture texture).1.material_manager = r.material_manager
      ∧ (r.add_texture texture).1.object_manager = r.object_manager)
    ∧ ((r.add_material material).2 = r.material_manager.allocate.2
      ∧ (r.add_material material).1.instructions.producer
          = r.instructions.producer
            ++ [.AddMaterial (r.add_material material).2 material]
      ∧ (r.add_material material).1.instructions.consumer
          = r.instructions.consumer
      ∧ (r.add_material material).1.material_manager
          = r.material_manager.allocate.1
      ∧ (r.add_material material).1.material_manager.registry.values
          = r.material_manager.registry.values
      ∧ (r.add_material material).1.mesh_manager = r.mesh_manager
      ∧ (r.add_material material).1.texture_manager = r.texture_manager
      ∧ (r.add_material material).1.object_manager = r.object_manager)
    ∧ ((r.add_object object).2 = r.object_manager.allocate.2
      ∧ (r.add_object object).1.instructions.producer
          = r.instructions.producer
            ++ [.AddObject (r.add_object object).2 object]
      ∧ (r.add_object object).1.instructions.consumer
          = r.instructions.consumer
      ∧ (r.add_object object).1.object_manager = r.object_manager.allocate.1
      ∧ (r.add_object object).1.object_manager.registry.values
          = r.object_manager.registry.values
      ∧ (r.add_object object).1.mesh_manager = r.mesh_manager
      ∧ (r.add_object object).1.texture_manager = r.texture_manager
      ∧ (r.add_object object).1.material_manager = r.material_manager) := by
  refine ⟨⟨rfl, rfl, rfl, rfl, ?_, rfl, rfl, rfl⟩,
    ⟨rfl, rfl, rfl, rfl, ?_, rfl, rfl, rfl⟩,
    ⟨rfl, rfl, rfl, rfl, ?_, rfl, rfl, rfl⟩,
    ⟨rfl, rfl, rfl, rfl, ?_, rfl, rfl, rfl⟩⟩ <;>
  exact values_allocate _

/-- C8 — Device-initialization failure is terminal and precedes any frame:
`create_renderer` returns `MissingAdapter` when the environment reports no
compatible adapter, and `RequestDeviceFailed` when feature and limit
negotiation succeed but device creation fails; in either case the result is an
error and never an `ok`-carried `Renderer`, so no render loop — which requires
a `Renderer` value — can be started. -/
theorem create_renderer_errors (env : GpuEnv) (options : RendererOptions) :
    (env.request_adapter = none →
      create_renderer env options = .error .MissingAdapter)
    ∧ (∀ a, env.request_adapter = some a → env.check_features a = .ok () →
        env.check_limits a = .ok () → env.request_device a = none →
        create_renderer env options = .error .RequestDeviceFailed)
    ∧ (∀ e, create_renderer env options = .error e →
        ∀ rend, create_renderer env options ≠ .ok rend) := by
  refine ⟨?_, ?_, ?_⟩
  · intro hn
    simp [create_renderer, hn]
  · intro a ha hf hl hd
    simp [create_renderer, ha, hf, hl, hd]
  · intro e he rend hok
    rw [he] at hok
    simp at hok

/-- Witness for C8: the missing-adapter environment and the
failing-device environment both produce the matching terminal errors. -/
theorem create_renderer_errors_witness :
    (envNoAdapter.request_adapter = none
      ∧ create_renderer envNoAdapter ⟨[]⟩ = .error .MissingAdapter)
    ∧ (envDeviceFail.request_adapter = some 0
        ∧ envDeviceFail.check_features 0 = .ok ()
        ∧ envDeviceFail.check_limits 0 = .ok ()
        ∧ envDeviceFail.request_device 0 = none
        ∧ create_renderer envDeviceFail ⟨[]⟩ = .error .RequestDeviceFailed) :=
  ⟨⟨rfl, (create_renderer_errors envNoAdapter ⟨[]⟩).1 rfl⟩,
   ⟨rfl, rfl, rfl, rfl,
    (create_renderer_errors envDeviceFail ⟨[]⟩).2.1 0 rfl rfl rfl rfl⟩⟩

end Rend3
